import Mathlib

/-!
# `person.cc`: a record with a validated setter and a console log

Shallow embedding of `class Person` and of the program around it (`func`, `main`).

* The three data members become the fields of the structure `Person`.
  `unsigned int` is embedded as `Nat`: the program compares, copies and prints the year and
  performs no arithmetic on it, so no wrap-around can occur.
* `std::cout` is an append-only text; it is passed in and handed back explicitly.
  Inserting a `std::string` or a string literal appends its characters, inserting a `char`
  appends that one character, inserting an `unsigned int` appends its decimal digits.
* `throw "..."` is embedded as `Except.error` carrying the thrown text.  The record and the
  console as they stand when the exception leaves the call are part of the outcome, since the
  caller keeps both.
-/

namespace PersonCc

/-- Private data of `class Person`: `firstname`, `lastname`, `yearofbirth`. -/
structure Person where
  firstname : String
  lastname : String
  yearofbirth : Nat
deriving DecidableEq, Repr

/-- Everything a member call leaves behind: the value returned or the exception thrown, the
object the call was made on, and the console. -/
structure Outcome (α : Type) where
  result : Except String α
  self : Person
  cout : String

/-- Constructor `Person::Person()`. -/
def Person.ctor (cout : String) : Outcome Unit :=
  let self : Person := { firstname := "", lastname := "", yearofbirth := 0 }
  let cout := cout ++ "Person object instantiated without names or birth year\n"
  { result := .ok (), self := self, cout := cout }

/-- Constructor `Person::Person(std::string const &fn, std::string const &ln, unsigned int yob)`. -/
def Person.ctorWith (cout : String) (fn ln : String) (yob : Nat) : Outcome Unit :=
  let self : Person := { firstname := fn, lastname := ln, yearofbirth := yob }
  let cout := cout ++ "Person object instatiated: " ++ self.firstname ++ " "
    ++ self.lastname ++ ", year of birth " ++ toString self.yearofbirth ++ "\n"
  { result := .ok (), self := self, cout := cout }

/-- Destructor `Person::~Person()`. -/
def Person.dtor (self : Person) (cout : String) : Outcome Unit :=
  let cout := cout ++ "Person " ++ self.firstname ++ " " ++ self.lastname
    ++ " born in " ++ toString self.yearofbirth ++ " goes out of scope\n"
  { result := .ok (), self := self, cout := cout }

/-- Member `Person::setname`. -/
def Person.setname (self : Person) (cout : String) (fn ln : String) : Outcome Unit :=
  let cout := cout ++ "Person previously known as " ++ self.firstname ++ " " ++ self.lastname
  let self := { self with firstname := fn }
  let self := { self with lastname := ln }
  let cout := cout ++ " is now " ++ self.firstname ++ " " ++ self.lastname ++ "\n"
  { result := .ok (), self := self, cout := cout }

/-- Member `Person::getfirstname`. -/
def Person.getfirstname (self : Person) (cout : String) : Outcome String :=
  { result := .ok self.firstname, self := self, cout := cout }

/-- Member `Person::getlastname`. -/
def Person.getlastname (self : Person) (cout : String) : Outcome String :=
  { result := .ok self.lastname, self := self, cout := cout }

/-- Member `Person::setyearofbirth`. -/
def Person.setyearofbirth (self : Person) (cout : String) (yob : Nat) : Outcome Unit :=
  if yob < 1900 then
    { result := .error "setyearofbirth: year must be >= 1900", self := self, cout := cout }
  else
    let cout := cout ++ "Person " ++ self.firstname ++ " " ++ self.lastname ++ ", born in "
      ++ toString self.yearofbirth
    let self := { self with yearofbirth := yob }
    let cout := cout ++ " is now born in " ++ toString self.yearofbirth ++ "\n"
    { result := .ok (), self := self, cout := cout }

/-- Member `Person::getyearofbirth`. -/
def Person.getyearofbirth (self : Person) (cout : String) : Outcome Nat :=
  { result := .ok self.yearofbirth, self := self, cout := cout }

/-- Function `func`: a local object is constructed and goes out of scope at the closing brace. -/
def func (cout : String) : String :=
  let x := Person.ctorWith cout "Scooby" "Doo" 1969
  (x.self.dtor x.cout).cout

/-- Function `main`.  The result is the exit status, or the exception that escapes `main`
(the program then terminates without running the destructors), together with the console. -/
def main (cout : String) : Except String Int × String :=
  let r := Person.ctor cout
  let one := r.self
  let r := Person.ctorWith r.cout "Sponge" "Bob" 1999
  let two := r.self
  let r1 := one.setname r.cout "Mickey" "Mouse"
  let r2 := r1.self.setyearofbirth r1.cout 1928
  match r2.result with
  | .error e => (.error e, r2.cout)
  | .ok () =>
    let one := r2.self
    let cout := func r2.cout
    -- try { one.setyearofbirth(1800); } catch (...) { ... }
    let r3 := one.setyearofbirth cout 1800
    let one := r3.self
    let cout :=
      match r3.result with
      | .ok () => r3.cout
      | .error _ => r3.cout ++ "Could not set the birth year to 1800\n"
    -- return 0: the locals are destroyed in reverse order of construction
    let cout := (two.dtor cout).cout
    let cout := (one.dtor cout).cout
    (.ok 0, cout)

/-- The output documented in the comment that closes `person.cc`, one entry per line. -/
def documentedOutput : List String :=
  [ "Person object instantiated without names or birth year",
    "Person object instatiated: Sponge Bob, year of birth 1999",
    "Person previously known as   is now Mickey Mouse",
    "Person Mickey Mouse, born in 0 is now born in 1928",
    "Person object instatiated: Scooby Doo, year of birth 1969",
    "Person Scooby Doo born in 1969 goes out of scope",
    "Could not set the birth year to 1800",
    "Person Sponge Bob born in 1999 goes out of scope",
    "Person Mickey Mouse born in 1928 goes out of scope" ]

/-- Text of a list of lines, each one closed by a newline. -/
def unlines (ls : List String) : String :=
  ls.foldl (fun acc l => acc ++ l ++ "\n") ""

/-- One call a client can make on a live record. -/
inductive Call where
  | setname (fn ln : String)
  | setyearofbirth (yob : Nat)
deriving DecidableEq, Repr

/-- Dispatch of a client call to the member it names. -/
def Call.apply (c : Call) (self : Person) (cout : String) : Outcome Unit :=
  match c with
  | .setname fn ln => self.setname cout fn ln
  | .setyearofbirth yob => self.setyearofbirth cout yob

/-- A client that makes the calls one after the other on the same record, catching whatever a
call throws (as the `try`/`catch (...)` in `main` does) and carrying on. -/
def runCalls : List Call → Person → String → Person × String
  | [], self, cout => (self, cout)
  | c :: cs, self, cout => runCalls cs (c.apply self cout).self (c.apply self cout).cout

/-- The two ways to construct a record. -/
inductive Construction where
  | default
  | withArgs (fn ln : String) (yob : Nat)
deriving DecidableEq, Repr

/-- Dispatch of a construction to the constructor it names. -/
def Construction.apply (k : Construction) (cout : String) : Outcome Unit :=
  match k with
  | .default => Person.ctor cout
  | .withArgs fn ln yob => Person.ctorWith cout fn ln yob

/-- The record a client holds after constructing it and making the given calls on it. -/
def reached (k : Construction) (calls : List Call) (cout : String) : Person :=
  (runCalls calls (k.apply cout).self (k.apply cout).cout).1

/-- The year rule of the data model: zero (unknown) or at least 1900. -/
def yearRule (y : Nat) : Prop := y = 0 ∨ 1900 ≤ y

instance (y : Nat) : Decidable (yearRule y) := by unfold yearRule; infer_instance

/-- The text holds no newline character. -/
def newlineFree (s : String) : Prop := '\n' ∉ s.data

instance (s : String) : Decidable (newlineFree s) := by unfold newlineFree; infer_instance

/-- Exactly one line has been appended: the console grew by a newline-free text followed by
one newline. -/
def appendsOneLine (before after : String) : Prop :=
  ∃ line : String, newlineFree line ∧ after = before ++ line ++ "\n"

/-! ## Auxiliary facts about texts -/

theorem digitChar_ne_newline : ∀ d : Nat, d < 10 → Nat.digitChar d ≠ '\n' := by
  decide

theorem toDigitsCore_newlineFree (fuel : Nat) :
    ∀ (n : Nat) (acc : List Char), '\n' ∉ acc → '\n' ∉ Nat.toDigitsCore 10 fuel n acc := by
  induction fuel with
  | zero => intro n acc h; simpa [Nat.toDigitsCore] using h
  | succ f ih =>
    intro n acc h
    have hc : '\n' ∉ Nat.digitChar (n % 10) :: acc := by
      simp only [List.mem_cons, not_or]
      exact ⟨fun e => digitChar_ne_newline _ (Nat.mod_lt _ (by decide)) e.symm, h⟩
    unfold Nat.toDigitsCore
    dsimp only
    split_ifs
    · exact hc
    · exact ih _ _ hc

theorem newlineFree_toString (n : Nat) : newlineFree (toString n) := by
  show '\n' ∉ (Nat.repr n).data
  unfold Nat.repr Nat.toDigits
  exact toDigitsCore_newlineFree _ _ _ (by simp)

theorem newlineFree_append {s t : String} (hs : newlineFree s) (ht : newlineFree t) :
    newlineFree (s ++ t) := by
  unfold newlineFree at *
  simp [String.data_append, hs, ht]

theorem setname_yearofbirth (p : Person) (cout fn ln : String) :
    (p.setname cout fn ln).self.yearofbirth = p.yearofbirth := rfl

theorem setyearofbirth_yearRule (p : Person) (cout : String) (yob : Nat)
    (h : yearRule p.yearofbirth) : yearRule (p.setyearofbirth cout yob).self.yearofbirth := by
  unfold Person.setyearofbirth
  split_ifs with hy
  · exact h
  · exact Or.inr (by simpa using hy)

theorem runCalls_yearRule (calls : List Call) :
    ∀ (p : Person) (cout : String), yearRule p.yearofbirth →
      yearRule (runCalls calls p cout).1.yearofbirth := by
  induction calls with
  | nil => intro p cout h; exact h
  | cons c cs ih =>
    intro p cout h
    unfold runCalls
    apply ih
    cases c with
    | setname fn ln => exact h
    | setyearofbirth yob => exact setyearofbirth_yearRule p cout yob h

theorem runCalls_year_ge (calls : List Call) :
    ∀ (p : Person) (cout : String), 1900 ≤ p.yearofbirth →
      1900 ≤ (runCalls calls p cout).1.yearofbirth := by
  induction calls with
  | nil => intro p cout h; exact h
  | cons c cs ih =>
    intro p cout h
    unfold runCalls
    apply ih
    cases c with
    | setname fn ln => exact h
    | setyearofbirth yob =>
      show 1900 ≤ (p.setyearofbirth cout yob).self.yearofbirth
      unfold Person.setyearofbirth
      split_ifs with hy
      · exact h
      · simpa using hy

theorem runCalls_year_of_success (calls : List Call) :
    ∀ (p : Person) (cout : String),
      (∃ yob, Call.setyearofbirth yob ∈ calls ∧ 1900 ≤ yob) →
      1900 ≤ (runCalls calls p cout).1.yearofbirth := by
  induction calls with
  | nil => rintro p cout ⟨yob, hmem, _⟩; simp at hmem
  | cons c cs ih =>
    rintro p cout ⟨yob, hmem, hy⟩
    unfold runCalls
    rcases List.mem_cons.1 hmem with hc | hcs
    · subst hc
      apply runCalls_year_ge
      show 1900 ≤ (p.setyearofbirth cout yob).self.yearofbirth
      have hn : ¬ yob < 1900 := by omega
      simp [Person.setyearofbirth, hn, hy]
    · exact ih _ _ ⟨yob, hcs, hy⟩

theorem runCalls_year_of_no_success (calls : List Call) :
    ∀ (p : Person) (cout : String),
      (¬ ∃ yob, Call.setyearofbirth yob ∈ calls ∧ 1900 ≤ yob) →
      (runCalls calls p cout).1.yearofbirth = p.yearofbirth := by
  induction calls with
  | nil => intro p cout _; rfl
  | cons c cs ih =>
    intro p cout hno
    unfold runCalls
    have hcs : ¬ ∃ yob, Call.setyearofbirth yob ∈ cs ∧ 1900 ≤ yob := by
      rintro ⟨yob, hmem, hy⟩
      exact hno ⟨yob, List.mem_cons_of_mem _ hmem, hy⟩
    rw [ih _ _ hcs]
    cases c with
    | setname fn ln => rfl
    | setyearofbirth yob =>
      have hlt : yob < 1900 := by
        by_contra hge
        exact hno ⟨yob, List.mem_cons_self _ _, by omega⟩
      show (p.setyearofbirth cout yob).self.yearofbirth = p.yearofbirth
      simp [Person.setyearofbirth, hlt]

/-! ## The claims -/

/-- C1: for every record and every year `yob ≥ 1900` (1900 included), `setyearofbirth(yob)`
does not throw and `getyearofbirth()` afterwards returns `yob`. -/
theorem setyearofbirth_accepts (p : Person) (cout : String) (yob : Nat) (h : 1900 ≤ yob) :
    (p.setyearofbirth cout yob).result = .ok () ∧
    ((p.setyearofbirth cout yob).self.getyearofbirth (p.setyearofbirth cout yob).cout).result
      = .ok yob := by
  have hy : ¬ yob < 1900 := by omega
  simp [Person.setyearofbirth, Person.getyearofbirth, hy]

theorem setyearofbirth_accepts_witness :
    1900 ≤ 1900 ∧
    ((⟨"Mickey", "Mouse", 0⟩ : Person).setyearofbirth "" 1900).result = .ok () ∧
    (((⟨"Mickey", "Mouse", 0⟩ : Person).setyearofbirth "" 1900).self.getyearofbirth
      ((⟨"Mickey", "Mouse", 0⟩ : Person).setyearofbirth "" 1900).cout).result = .ok 1900 :=
  ⟨by decide, setyearofbirth_accepts ⟨"Mickey", "Mouse", 0⟩ "" 1900 (by decide)⟩

/-- C2: for every record and every year `yob < 1900` (0 and 1899 included),
`setyearofbirth(yob)` fails with an error (the thrown text), and `getyearofbirth()` afterwards
returns what it returned before the call. -/
theorem setyearofbirth_rejects (p : Person) (cout : String) (yob : Nat) (h : yob < 1900) :
    (p.setyearofbirth cout yob).result = .error "setyearofbirth: year must be >= 1900" ∧
    ((p.setyearofbirth cout yob).self.getyearofbirth (p.setyearofbirth cout yob).cout).result
      = (p.getyearofbirth cout).result := by
  simp [Person.setyearofbirth, Person.getyearofbirth, h]

theorem setyearofbirth_rejects_witness :
    1899 < 1900 ∧
    ((⟨"Mickey", "Mouse", 1928⟩ : Person).setyearofbirth "" 1899).result
      = .error "setyearofbirth: year must be >= 1900" ∧
    (((⟨"Mickey", "Mouse", 1928⟩ : Person).setyearofbirth "" 1899).self.getyearofbirth
      ((⟨"Mickey", "Mouse", 1928⟩ : Person).setyearofbirth "" 1899).cout).result
      = ((⟨"Mickey", "Mouse", 1928⟩ : Person).getyearofbirth "").result :=
  ⟨by decide, setyearofbirth_rejects ⟨"Mickey", "Mouse", 1928⟩ "" 1899 (by decide)⟩

/-- C3, as stated, fails: on a record whose first name holds a newline character (put there
by `setname`, which accepts any text), a successful `setyearofbirth(1950)` appends two lines to
the output, not one. -/
theorem setyearofbirth_two_lines :
    1900 ≤ 1950 ∧
    ((⟨"Scooby\nDooby", "Doo", 0⟩ : Person).setyearofbirth "" 1950).result = .ok () ∧
    ((⟨"Scooby\nDooby", "Doo", 0⟩ : Person).setyearofbirth "" 1950).cout
      = "Person Scooby\nDooby Doo, born in 0 is now born in 1950\n" ∧
    ¬ appendsOneLine "" ((⟨"Scooby\nDooby", "Doo", 0⟩ : Person).setyearofbirth "" 1950).cout := by
  have hout : ((⟨"Scooby\nDooby", "Doo", 0⟩ : Person).setyearofbirth "" 1950).cout
      = "Person Scooby\nDooby Doo, born in 0 is now born in 1950\n" := by decide
  refine ⟨by decide, rfl, hout, ?_⟩
  rintro ⟨line, hfree, heq⟩
  rw [hout] at heq
  have hdata := congrArg String.data heq
  simp only [String.data_append] at hdata
  have hd := congrArg List.dropLast hdata
  rw [List.nil_append, List.dropLast_append_of_ne_nil _ (by simp), List.dropLast_single,
    List.append_nil] at hd
  have hmem : '\n' ∈ line.data := by rw [← hd]; decide
  exact hfree hmem

/-- C3, amended: `setyearofbirth` is atomic with respect to the record and the event log.
For `yob ≥ 1900` the call succeeds, the year field becomes `yob`, the other fields stay, and
exactly one notification is appended to the output: the text
`Person <first> <last>, born in <old year> is now born in <yob>` closed by a newline, which is
exactly one line whenever neither name holds a newline character.  For `yob < 1900` the call
fails, every field is unchanged and nothing is appended to the output. -/
theorem setyearofbirth_atomic (p : Person) (cout : String) (yob : Nat) :
    (1900 ≤ yob →
      (p.setyearofbirth cout yob).result = .ok () ∧
      (p.setyearofbirth cout yob).self = { p with yearofbirth := yob } ∧
      (p.setyearofbirth cout yob).cout
        = cout ++ ("Person " ++ p.firstname ++ " " ++ p.lastname ++ ", born in "
            ++ toString p.yearofbirth ++ " is now born in " ++ toString yob) ++ "\n" ∧
      (newlineFree p.firstname → newlineFree p.lastname →
        appendsOneLine cout (p.setyearofbirth cout yob).cout)) ∧
    (yob < 1900 →
      (p.setyearofbirth cout yob).result = .error "setyearofbirth: year must be >= 1900" ∧
      (p.setyearofbirth cout yob).self = p ∧
      (p.setyearofbirth cout yob).cout = cout) := by
  constructor
  · intro h
    have hy : ¬ yob < 1900 := by omega
    have hout : (p.setyearofbirth cout yob).cout
        = cout ++ ("Person " ++ p.firstname ++ " " ++ p.lastname ++ ", born in "
            ++ toString p.yearofbirth ++ " is now born in " ++ toString yob) ++ "\n" := by
      simp [Person.setyearofbirth, hy, String.append_assoc]
    refine ⟨by simp [Person.setyearofbirth, hy], by simp [Person.setyearofbirth, hy], hout, ?_⟩
    intro hf hl
    refine ⟨_, ?_, hout⟩
    have h1 : newlineFree "Person " := by decide
    have h2 : newlineFree " " := by decide
    have h3 : newlineFree ", born in " := by decide
    have h4 : newlineFree " is now born in " := by decide
    exact newlineFree_append (newlineFree_append (newlineFree_append (newlineFree_append
      (newlineFree_append (newlineFree_append (newlineFree_append h1 hf) h2) hl) h3)
      (newlineFree_toString _)) h4) (newlineFree_toString _)
  · intro h
    simp [Person.setyearofbirth, h]

theorem setyearofbirth_atomic_witness :
    (1900 ≤ 1928 ∧ newlineFree "Mickey" ∧ newlineFree "Mouse" ∧
      ((⟨"Mickey", "Mouse", 0⟩ : Person).setyearofbirth "" 1928).self = ⟨"Mickey", "Mouse", 1928⟩ ∧
      appendsOneLine "" ((⟨"Mickey", "Mouse", 0⟩ : Person).setyearofbirth "" 1928).cout) ∧
    (1800 < 1900 ∧
      ((⟨"Mickey", "Mouse", 1928⟩ : Person).setyearofbirth "log\n" 1800).self
        = ⟨"Mickey", "Mouse", 1928⟩ ∧
      ((⟨"Mickey", "Mouse", 1928⟩ : Person).setyearofbirth "log\n" 1800).cout = "log\n") :=
  ⟨⟨by decide, by decide, by decide,
      ((setyearofbirth_atomic ⟨"Mickey", "Mouse", 0⟩ "" 1928).1 (by decide)).2.1,
      ((setyearofbirth_atomic ⟨"Mickey", "Mouse", 0⟩ "" 1928).1 (by decide)).2.2.2
        (by decide) (by decide)⟩,
    ⟨by decide,
      ((setyearofbirth_atomic ⟨"Mickey", "Mouse", 1928⟩ "log\n" 1800).2 (by decide)).2.1,
      ((setyearofbirth_atomic ⟨"Mickey", "Mouse", 1928⟩ "log\n" 1800).2 (by decide)).2.2⟩⟩

/-- C4: for every record and every pair of texts `a`, `b` (empty ones included),
`setname(a, b)` does not fail, and afterwards `getfirstname()` returns exactly `a` and
`getlastname()` returns exactly `b`. -/
theorem setname_then_get (p : Person) (cout a b : String) :
    (p.setname cout a b).result = .ok () ∧
    ((p.setname cout a b).self.getfirstname (p.setname cout a b).cout).result = .ok a ∧
    ((p.setname cout a b).self.getlastname (p.setname cout a b).cout).result = .ok b :=
  ⟨rfl, rfl, rfl⟩

/-- C5, as stated, fails: the record built by `Person("Fred", "Flintstone", 1800)`, with no
call made on it yet, reports the year 1800, which is neither 0 nor at least 1900. -/
theorem year_rule_broken_by_constructor :
    ((reached (.withArgs "Fred" "Flintstone" 1800) [] "").getyearofbirth "").result = .ok 1800 ∧
    ¬ (1800 = 0 ∨ 1900 ≤ 1800) :=
  ⟨rfl, by decide⟩

/-- C5, amended: after any construction (default or parameterized, with any arguments)
followed by any finite sequence of `setname` and `setyearofbirth` calls (successful or
failing), `getyearofbirth()` returns 0 or a value that is at least 1900 exactly when the
construction was the default one, or the year argument of the parameterized constructor was 0
or at least 1900, or at least one of the `setyearofbirth` calls succeeded (its argument was at
least 1900). -/
theorem year_rule_reachable (k : Construction) (calls : List Call) (cout c : String) :
    ∃ y, ((reached k calls cout).getyearofbirth c).result = .ok y ∧
      ((y = 0 ∨ 1900 ≤ y) ↔
        ((∀ fn ln yob, k = .withArgs fn ln yob → yob = 0 ∨ 1900 ≤ yob) ∨
          ∃ yob, Call.setyearofbirth yob ∈ calls ∧ 1900 ≤ yob)) := by
  refine ⟨(reached k calls cout).yearofbirth, rfl, ?_, ?_⟩
  · intro hy
    by_cases hs : ∃ yob, Call.setyearofbirth yob ∈ calls ∧ 1900 ≤ yob
    · exact Or.inr hs
    · left
      intro fn ln yob hk
      subst hk
      have hyear := runCalls_year_of_no_success calls
        (Construction.apply (.withArgs fn ln yob) cout).self
        (Construction.apply (.withArgs fn ln yob) cout).cout hs
      unfold reached at hy
      rw [hyear] at hy
      exact hy
  · rintro (hk | hs)
    · unfold reached
      apply runCalls_yearRule
      cases k with
      | default => exact Or.inl rfl
      | withArgs fn ln yob => exact hk fn ln yob rfl
    · exact Or.inr (runCalls_year_of_success calls _ _ hs)

theorem year_rule_reachable_witness :
    (∃ yob, Call.setyearofbirth yob
        ∈ [Call.setyearofbirth 1850, .setname "Wilma" "Flintstone", .setyearofbirth 1928]
        ∧ 1900 ≤ yob) ∧
    ∃ y, ((reached (.withArgs "Fred" "Flintstone" 1800)
        [.setyearofbirth 1850, .setname "Wilma" "Flintstone", .setyearofbirth 1928]
        "").getyearofbirth "").result = .ok y ∧ (y = 0 ∨ 1900 ≤ y) :=
  ⟨⟨1928, by decide, by decide⟩,
    match year_rule_reachable (.withArgs "Fred" "Flintstone" 1800)
      [.setyearofbirth 1850, .setname "Wilma" "Flintstone", .setyearofbirth 1928] "" "" with
    | ⟨y, hy, hiff⟩ => ⟨y, hy, hiff.2 (Or.inr ⟨1928, by decide, by decide⟩)⟩⟩

/-- C6: the parameterized constructor validates nothing: for all texts `fn`, `ln` and every
year `yob` (1969, and also 1800, which the setter rejects), `Person(fn, ln, yob)` succeeds and
the record has `getfirstname() = fn`, `getlastname() = ln` and `getyearofbirth() = yob`. -/
theorem ctorWith_unvalidated (cout fn ln : String) (yob : Nat) :
    (Person.ctorWith cout fn ln yob).result = .ok () ∧
    ((Person.ctorWith cout fn ln yob).self.getfirstname
      (Person.ctorWith cout fn ln yob).cout).result = .ok fn ∧
    ((Person.ctorWith cout fn ln yob).self.getlastname
      (Person.ctorWith cout fn ln yob).cout).result = .ok ln ∧
    ((Person.ctorWith cout fn ln yob).self.getyearofbirth
      (Person.ctorWith cout fn ln yob).cout).result = .ok yob :=
  ⟨rfl, rfl, rfl, rfl⟩

/-- C7: the default constructor yields a record with `getyearofbirth() = 0`,
`getfirstname() = ""` and `getlastname() = ""`, and emits exactly one lifecycle notification
line, `Person object instantiated without names or birth year`. -/
theorem ctor_default (cout : String) :
    (Person.ctor cout).result = .ok () ∧
    ((Person.ctor cout).self.getyearofbirth (Person.ctor cout).cout).result = .ok 0 ∧
    ((Person.ctor cout).self.getfirstname (Person.ctor cout).cout).result = .ok "" ∧
    ((Person.ctor cout).self.getlastname (Person.ctor cout).cout).result = .ok "" ∧
    (Person.ctor cout).cout
      = cout ++ "Person object instantiated without names or birth year" ++ "\n" ∧
    appendsOneLine cout (Person.ctor cout).cout := by
  have hout : (Person.ctor cout).cout
      = cout ++ "Person object instantiated without names or birth year" ++ "\n" := by
    rw [String.append_assoc]; rfl
  exact ⟨rfl, rfl, rfl, rfl, hout, _, by decide, hout⟩

set_option maxRecDepth 100000 in
/-- C8: the scenario in `main`, started on an empty console, returns 0 and prints exactly the
nine lines documented in the comment that closes the file, in that order; the last of them is
the destructor line of `one`, reporting Mickey Mouse born in 1928. -/
theorem main_output :
    main "" = (.ok 0, unlines documentedOutput) ∧
    documentedOutput.length = 9 ∧
    (∀ l ∈ documentedOutput, newlineFree l) ∧
    documentedOutput.getLast? = some "Person Mickey Mouse born in 1928 goes out of scope" := by
  refine ⟨by rfl, by rfl, by decide, by rfl⟩

/-- C9: the three getters are pure observers: each returns the current value of its field,
does not fail, leaves the record as it is and appends nothing to the output. -/
theorem getters_pure (p : Person) (cout : String) :
    p.getfirstname cout = { result := .ok p.firstname, self := p, cout := cout } ∧
    p.getlastname cout = { result := .ok p.lastname, self := p, cout := cout } ∧
    p.getyearofbirth cout = { result := .ok p.yearofbirth, self := p, cout := cout } :=
  ⟨rfl, rfl, rfl⟩

/-- C10: the two setters touch disjoint fields: `setname(a, b)` leaves `getyearofbirth()`
unchanged, and for `yob ≥ 1900` `setyearofbirth(yob)` leaves `getfirstname()` and
`getlastname()` unchanged. -/
theorem setters_disjoint (p : Person) (cout a b : String) (yob : Nat) :
    ((p.setname cout a b).self.getyearofbirth (p.setname cout a b).cout).result
      = (p.getyearofbirth cout).result ∧
    (1900 ≤ yob →
      ((p.setyearofbirth cout yob).self.getfirstname (p.setyearofbirth cout yob).cout).result
        = (p.getfirstname cout).result ∧
      ((p.setyearofbirth cout yob).self.getlastname (p.setyearofbirth cout yob).cout).result
        = (p.getlastname cout).result) := by
  refine ⟨rfl, fun h => ?_⟩
  have hy : ¬ yob < 1900 := by omega
  simp [Person.setyearofbirth, Person.getfirstname, Person.getlastname, hy]

theorem setters_disjoint_witness :
    1900 ≤ 1928 ∧
    (((⟨"Mickey", "Mouse", 0⟩ : Person).setyearofbirth "" 1928).self.getfirstname
      ((⟨"Mickey", "Mouse", 0⟩ : Person).setyearofbirth "" 1928).cout).result
        = ((⟨"Mickey", "Mouse", 0⟩ : Person).getfirstname "").result ∧
    (((⟨"Mickey", "Mouse", 0⟩ : Person).setyearofbirth "" 1928).self.getlastname
      ((⟨"Mickey", "Mouse", 0⟩ : Person).setyearofbirth "" 1928).cout).result
        = ((⟨"Mickey", "Mouse", 0⟩ : Person).getlastname "").result :=
  ⟨by decide, (setters_disjoint ⟨"Mickey", "Mouse", 0⟩ "" "Sponge" "Bob" 1928).2 (by decide)⟩

end PersonCc
